import Mathlib

/-!
# Verification of the invoice-processing pipeline (bwhite001/Tax-Invoices)

A shallow embedding, in Lean 4, of the core of the invoice cataloger:

* `src/invoice_cataloger/processors/categorizer.py` (`ExpenseCategorizer`)
* `src/invoice_cataloger/processors/deduction_calculator.py` (`DeductionCalculator`)
* `src/invoice_cataloger/tax/strategies/ato_strategy.py` (`ATOStrategy`)
* `src/invoice_cataloger/tax/strategies/base_strategy.py` (`TaxStrategy` helpers)
* `src/invoice_cataloger/extractors/pdf_extractor.py` (`PDFExtractor`)
* `src/invoice_cataloger/utils/cache_manager.py` (`CacheManager`, `FailedFilesManager`)
* `src/invoice_cataloger/core/file_processor.py` (`FileProcessor`)

Modelling conventions:

* Python strings are Lean `String`s; `str.strip()` is `pyStrip`, `str.lower()` is
  `pyLower`, Python's substring test `needle in hay` is `strContains hay needle`.
* Monetary amounts (Python floats holding decimal currency values) are modelled as
  exact rationals `ℚ`.  Python's `round(x, 2)` (round-half-to-even at two decimal
  places, per the documented semantics of `round`) is `round2`; the `:.0f` format
  specifier rounds half-to-even to an integer, modelled by `roundHalfEvenZ`.
* Side effects (file moves, calls to the extraction chain / the external
  structured-extraction service) are instrumented as boolean flags in the result of
  the orchestrator embedding, set exactly on the code paths where the Python
  performs the corresponding call.
* Fallible operations return `Option`.
-/

/-- Python `str.strip()` restricted to the whitespace characters that occur in this
pipeline's data: drop leading and trailing whitespace. -/
def pyStrip (s : String) : String :=
  String.mk (((s.toList.dropWhile Char.isWhitespace).reverse.dropWhile Char.isWhitespace).reverse)

/-- Python `str.lower()` (ASCII case folding, which covers all strings occurring in
the vendor/keyword tables). -/
def pyLower (s : String) : String :=
  String.mk (s.toList.map Char.toLower)

/-- Auxiliary: does `needle` occur as a contiguous sublist of `hay`? -/
def listContains (needle : List Char) : List Char → Bool
  | [] => needle.isPrefixOf []
  | c :: cs => needle.isPrefixOf (c :: cs) || listContains needle cs

/-- Python's substring test `needle in hay`. -/
def strContains (hay needle : String) : Bool :=
  listContains needle.toList hay.toList

/-- Round a rational to the nearest integer, ties to even — the semantics of
Python's `round(x)` and of the `:.0f` format specifier on exact decimal values. -/
def roundHalfEvenZ (q : ℚ) : ℤ :=
  let f : ℤ := ⌊q⌋
  let r : ℚ := q - f
  if r < 1/2 then f
  else if 1/2 < r then f + 1
  else if f % 2 = 0 then f else f + 1

/-- Python `round(x, 2)`: round to two decimal places, ties to even. -/
def round2 (q : ℚ) : ℚ :=
  (roundHalfEvenZ (q * 100) : ℚ) / 100

/-- A rational sits exactly on a rounding tie when its fractional part is 1/2.
Exact half-cent ties are artifacts of the exact-decimal idealization: the binary
floating-point doubles the program actually manipulates can never land exactly
on such a tie, so theorems whose truth would hinge on tie-breaking carry
explicit tie-freeness hypotheses. -/
def isHalfTie (q : ℚ) : Prop := q - ⌊q⌋ = 1/2

instance (q : ℚ) : Decidable (isHalfTie q) :=
  inferInstanceAs (Decidable (q - ⌊q⌋ = 1/2))


/-!
## Invoice fields

`InvoiceFields` is the record produced by the structured extractor
(`LLMProcessor.extract_invoice_data`); every field is defaulted by the Python code
(`.get(key, default)`), so the Lean record is total.  A line item is represented by
its `description` value, the only part the pipeline reads.
-/

structure InvoiceFields where
  vendor_name : String
  vendor_abn : String
  invoice_number : String
  invoice_date : String
  due_date : String
  subtotal : ℚ
  tax : ℚ
  total : ℚ
  currency : String
  description : String
  line_items : List String
  deriving DecidableEq, Repr

/-!
## ExpenseCategorizer (`processors/categorizer.py`)

The class-level `CATEGORIES` table, in Python dict insertion order, and
`ExpenseCategorizer.categorize` (lines 118–146): build one lowercase search string
from vendor name, description and line-item descriptions, then return the first
category any of whose keywords occurs as a substring, else `"Other"`.
-/

def CATEGORIES : List (String × List String) := [
  ("Food & Groceries", ["food", "grocery", "groceries", "supermarket", "woolworths", "coles",
    "aldi", "iga", "restaurant", "cafe", "coffee", "lunch", "dinner",
    "breakfast", "meal", "catering", "uber eats", "menulog", "deliveroo",
    "doordash", "hungry jack", "mcdonald", "kfc", "subway", "domino"]),
  ("Electronics", ["electronics", "electronic", "jb hi-fi", "jb hifi", "harvey norman",
    "good guys", "bing lee", "appliance", "tv", "television", "camera",
    "headphones", "speaker", "audio", "video", "gaming", "console",
    "playstation", "xbox", "nintendo"]),
  ("Software & Subscriptions", ["software", "license", "subscription", "saas", "ide", "github", "azure",
    "aws", "jetbrains", "microsoft", "adobe", "npm", "python", "annual",
    "monthly", "cloud", "hosting", "domain", "ssl", "api", "dropbox",
    "google workspace", "office 365", "slack", "zoom", "notion", "figma",
    "canva", "visual studio", "intellij", "pycharm", "webstorm"]),
  ("Computer Equipment", ["computer", "laptop", "monitor", "keyboard", "mouse", "hardware", "dell",
    "hp", "lenovo", "macbook", "ipad", "tablet", "printer", "scanner",
    "webcam", "microphone", "usb", "cable", "adapter", "dock", "ssd",
    "hard drive", "ram", "memory", "cpu", "gpu", "motherboard"]),
  ("Electricity", ["electricity", "energy", "power", "electric", "eora", "ergon", "ausgrid",
    "energex", "agl", "origin", "red energy", "simply energy", "alinta",
    "powershop", "momentum energy"]),
  ("Internet", ["internet", "isp", "broadband", "nbn", "telstra", "optus", "vodafone",
    "data", "tpg", "aussie broadband", "superloop", "belong", "wifi",
    "modem", "router", "dodo", "iinet"]),
  ("Phone & Mobile", ["phone", "mobile", "telco", "mobile plan", "sim", "smartphone", "iphone",
    "samsung", "android", "prepaid", "postpaid", "amaysim", "boost",
    "kogan mobile", "catch connect", "aldi mobile"]),
  ("Professional Development", ["training", "course", "udemy", "pluralsight", "education", "conference",
    "seminar", "masterclass", "workshop", "certification", "exam", "learning",
    "tutorial", "bootcamp", "coursera", "linkedin learning", "skillshare",
    "codecademy", "treehouse", "datacamp"]),
  ("Professional Membership", ["association", "membership", "professional", "society", "aca", "ieee",
    "acm", "annual fee", "registration", "accreditation", "acs", "aia"]),
  ("Office Supplies", ["office", "stationery", "supplies", "paper", "pen", "desk", "chair",
    "filing", "officeworks", "staples", "notebook", "folder", "binder",
    "whiteboard", "marker", "ink", "toner", "cartridge"]),
  ("Communication Tools", ["communication", "voip", "skype", "teams", "zoom", "slack", "discord",
    "webex", "gotomeeting", "conferencing", "video call", "ringcentral",
    "8x8", "dialpad"]),
  ("Transportation", ["transport", "uber", "taxi", "lyft", "didi", "ola", "petrol", "fuel",
    "gas", "parking", "toll", "car", "vehicle", "automotive", "service",
    "maintenance", "registration", "rego", "ctp", "greenslip"]),
  ("Clothing & Apparel", ["clothing", "clothes", "apparel", "shirt", "pants", "shoes", "jacket",
    "dress", "fashion", "wear", "footwear", "uniqlo", "zara", "h&m",
    "target", "kmart", "big w", "myer", "david jones"]),
  ("Health & Medical", ["health", "medical", "doctor", "pharmacy", "chemist", "medicine",
    "prescription", "dental", "dentist", "optometry", "glasses",
    "physiotherapy", "physio", "hospital", "clinic", "medicare", "pbs"]),
  ("Home & Garden", ["home", "garden", "bunnings", "mitre 10", "hardware", "tools", "paint",
    "furniture", "ikea", "fantastic furniture", "homeware", "decor",
    "renovation", "repair", "plumbing", "electrical"]),
  ("Entertainment & Media", ["entertainment", "netflix", "spotify", "disney", "amazon prime", "stan",
    "binge", "kayo", "foxtel", "streaming", "music", "movie", "cinema",
    "theatre", "event", "ticket", "concert", "apple music", "youtube premium"]),
  ("Books & Publications", ["book", "books", "publication", "magazine", "journal", "kindle", "ebook",
    "audiobook", "audible", "bookstore", "dymocks", "booktopia", "amazon books",
    "scribd", "o'reilly"]),
  ("Insurance", ["insurance", "policy", "premium", "cover", "coverage", "life insurance",
    "health insurance", "car insurance", "home insurance", "contents insurance",
    "income protection"]),
  ("Banking & Finance", ["bank", "banking", "fee", "account fee", "transaction fee", "atm",
    "interest", "loan", "credit card", "debit card", "financial", "investment",
    "commonwealth", "westpac", "anz", "nab"]),
  ("Utilities & Services", ["utility", "utilities", "water", "gas", "sewerage", "council", "rates",
    "waste", "garbage", "bin", "service fee", "sydney water", "yarra valley water"])]

/-- `ExpenseCategorizer.categorize` (categorizer.py 118–146): the search text is
the concatenation of vendor name, description and every line-item description,
lowercased; the first category with a keyword hit wins, else `"Other"`. -/
def categorize (vendor_name description : String) (line_items : List String) : String :=
  let search_text := line_items.foldl (fun acc d => acc ++ " " ++ d)
    (vendor_name ++ " " ++ description)
  let search_text := pyLower search_text
  match CATEGORIES.find? (fun ck => ck.2.any (fun kw => strContains search_text kw)) with
  | some ck => ck.1
  | none => "Other"

/-- A vendor-override rule as configured in `vendor_overrides.json`
(`vendor_pattern`, target `category`, `enabled` flag). -/
structure VendorOverride where
  vendor_pattern : String
  category : String
  enabled : Bool
  deriving DecidableEq, Repr

/-- Modelled from the spec: the vendor-override-aware `categorize` described in
spec §4.6 is missing from `categorizer.py` (the class in `src` accepts no
`vendor_overrides` argument and consults no overrides), although its caller
(`FileProcessor.__init__`, file_processor.py 183–186) and its test script
(`test_vendor_overrides.py`) both construct `ExpenseCategorizer(vendor_overrides=…)`.
Per the spec: enabled overrides are checked first, in list order, matching when the
`vendor_pattern` occurs case-insensitively in the vendor name; only then keyword
categorization runs. -/
def categorize_with_overrides (overrides : List VendorOverride)
    (vendor_name description : String) (line_items : List String) : String :=
  match overrides.find? (fun o =>
      o.enabled && strContains (pyLower vendor_name) (pyLower o.vendor_pattern)) with
  | some o => o.category
  | none => categorize vendor_name description line_items

/-!
## Deduction results and the ATO strategy (`tax/strategies/*.py`)
-/

/-- The dictionary produced by `TaxStrategy.format_deduction_result`
(base_strategy.py 128–158) and by `DeductionCalculator.calculate_deduction`. -/
structure DeductionResult where
  Category : String
  TotalAmount : ℚ
  WorkUsePercentage : ℚ
  DeductibleAmount : ℚ
  ClaimMethod : String
  ClaimNotes : String
  AtoReference : String
  RequiresDocumentation : List String
  deriving DecidableEq, Repr

/-- A category rule from `ato_rules.json`, as read by `ATOStrategy` with
`rule.get(key, default)` accesses; optional keys are `Option`s.
`depreciation_years` is the integer the JSON rule table supplies
(`rule.get('depreciation_years', 3)`). -/
structure CategoryRule where
  work_use_applicable : Bool
  threshold : Option ℚ
  depreciation_years : Option ℤ
  claim_method : Option String
  claim_notes : Option String
  ato_reference : Option String
  required_documentation : List String
  deriving DecidableEq, Repr

/-- `TaxStrategy.calculate_work_use_amount` (base_strategy.py 91–103):
`round(total_amount * (work_use_percentage / 100), 2)`. -/
def calculate_work_use_amount (total_amount work_use_percentage : ℚ) : ℚ :=
  round2 (total_amount * (work_use_percentage / 100))

/-- `ATOStrategy._calculate_full_deduction` (ato_strategy.py 119–141). -/
def calculate_full_deduction (category : String) (total_amount : ℚ)
    (rule : CategoryRule) : DeductionResult :=
  { Category := category
    TotalAmount := total_amount
    WorkUsePercentage := 100
    DeductibleAmount := total_amount
    ClaimMethod := rule.claim_method.getD "Full Deduction (100%)"
    ClaimNotes := rule.claim_notes.getD ""
    AtoReference := rule.ato_reference.getD ""
    RequiresDocumentation := rule.required_documentation }

/-- `ATOStrategy._calculate_work_use` (ato_strategy.py 143–173). -/
def calculate_work_use (category : String) (total_amount work_use_percentage : ℚ)
    (rule : CategoryRule) : DeductionResult :=
  let deductible_amount := calculate_work_use_amount total_amount work_use_percentage
  let claim_method := rule.claim_method.getD "Actual Cost Method"
  let claim_method := if work_use_percentage < 100 then
      claim_method ++ " (" ++ toString (roundHalfEvenZ work_use_percentage) ++ "% work use)"
    else claim_method
  { Category := category
    TotalAmount := total_amount
    WorkUsePercentage := work_use_percentage
    DeductibleAmount := deductible_amount
    ClaimMethod := claim_method
    ClaimNotes := rule.claim_notes.getD ""
    AtoReference := rule.ato_reference.getD ""
    RequiresDocumentation := rule.required_documentation }

/-- `ATOStrategy._calculate_with_threshold` (ato_strategy.py 175–215): at or under
the threshold, the immediate-deduction branch; above it, the work-use amount
(already rounded to cents) is divided by the rule's `depreciation_years`
(default 3) and rounded again. -/
def calculate_with_threshold (category : String)
    (total_amount work_use_percentage threshold : ℚ)
    (rule : CategoryRule) : DeductionResult :=
  if total_amount ≤ threshold then
    let deductible_amount := calculate_work_use_amount total_amount work_use_percentage
    let claim_method := "Immediate Deduction (Under $" ++ toString (roundHalfEvenZ threshold) ++ ")"
    let claim_notes := rule.claim_notes.getD ""
    let claim_notes := if work_use_percentage < 100 then
        "Work-related portion only (" ++ toString (roundHalfEvenZ work_use_percentage) ++ "%). "
          ++ claim_notes
      else claim_notes
    { Category := category
      TotalAmount := total_amount
      WorkUsePercentage := work_use_percentage
      DeductibleAmount := deductible_amount
      ClaimMethod := claim_method
      ClaimNotes := claim_notes
      AtoReference := rule.ato_reference.getD ""
      RequiresDocumentation := rule.required_documentation }
  else
    let depreciation_years := rule.depreciation_years.getD 3
    let work_use_amount := calculate_work_use_amount total_amount work_use_percentage
    let deductible_amount := round2 (work_use_amount / (depreciation_years : ℚ))
    let claim_method := "Decline in Value (Over $" ++ toString (roundHalfEvenZ threshold)
      ++ " - Depreciation)"
    let claim_notes := "Typical effective life: " ++ toString depreciation_years
      ++ " years. Use ATO Depreciation Tool. " ++ rule.claim_notes.getD ""
    { Category := category
      TotalAmount := total_amount
      WorkUsePercentage := work_use_percentage
      DeductibleAmount := deductible_amount
      ClaimMethod := claim_method
      ClaimNotes := claim_notes
      AtoReference := rule.ato_reference.getD ""
      RequiresDocumentation := rule.required_documentation }

/-- `ATOStrategy._create_manual_review_deduction` (ato_strategy.py 217–239). -/
def create_manual_review_deduction (category : String)
    (total_amount work_use_percentage : ℚ) : DeductionResult :=
  { Category := category
    TotalAmount := total_amount
    WorkUsePercentage := work_use_percentage
    DeductibleAmount := 0
    ClaimMethod := "Manual Review Required"
    ClaimNotes := "No rule found for category '" ++ category ++ "'. Consult tax professional."
    AtoReference := "Other Operating Expenses"
    RequiresDocumentation := ["Full documentation", "Professional advice"] }

/-- `ATOStrategy._calculate_by_rule` (ato_strategy.py 85–117). -/
def calculate_by_rule (category : String) (total_amount work_use_percentage : ℚ)
    (rule : CategoryRule) : DeductionResult :=
  if rule.work_use_applicable = false then
    calculate_full_deduction category total_amount rule
  else
    match rule.threshold with
    | some threshold =>
        calculate_with_threshold category total_amount work_use_percentage threshold rule
    | none => calculate_work_use category total_amount work_use_percentage rule

/-- `TaxStrategy.get_category_rule` (base_strategy.py 77–89): look the category up
in the rule table (the `'categories'` object of `ato_rules.json`, modelled as an
association list in JSON order). -/
def get_category_rule (rules : List (String × CategoryRule)) (category : String) :
    Option CategoryRule :=
  (rules.find? (fun r => r.1 == category)).map (·.2)

/-- `ATOStrategy.calculate_deduction` (ato_strategy.py 59–83). -/
def ato_calculate_deduction (rules : List (String × CategoryRule))
    (invoice_total : ℚ) (category : String) (work_use_percentage : ℚ) : DeductionResult :=
  match get_category_rule rules category with
  | none => create_manual_review_deduction category invoice_total work_use_percentage
  | some rule => calculate_by_rule category invoice_total work_use_percentage rule

/-!
## Legacy DeductionCalculator (`processors/deduction_calculator.py`)

The calculator the `FileProcessor` pipeline instantiates.  `fixed_rate_hourly_str`
stands for Python's rendering `str(self.fixed_rate_hourly)` interpolated into the
Electricity claim notes.
-/

/-- `DeductionCalculator.calculate_deduction` (deduction_calculator.py 15–124):
an if/elif chain on the category name, hard-coded $300 threshold and 2/3-year
depreciation divisors, else-branch routing to manual review. -/
def legacy_calculate_deduction (work_use_percentage : ℤ) (fixed_rate_hourly_str : String)
    (invoice : InvoiceFields) (category : String) : DeductionResult :=
  let total := invoice.total
  let work_use_decimal : ℚ := (work_use_percentage : ℚ) / 100
  let wupStr := toString work_use_percentage
  let base : DeductionResult :=
    { Category := category, TotalAmount := total,
      WorkUsePercentage := (work_use_percentage : ℚ), DeductibleAmount := 0,
      ClaimMethod := "", ClaimNotes := "", AtoReference := "", RequiresDocumentation := [] }
  if category = "Electricity" then
    { base with
      DeductibleAmount := round2 (total * work_use_decimal)
      ClaimMethod := "Actual Cost Method (" ++ wupStr ++ "% work use)"
      ClaimNotes := "Alternative: Fixed Rate Method at $" ++ fixed_rate_hourly_str
        ++ "/hour requires time records"
      AtoReference := "Working from Home Expenses"
      RequiresDocumentation := ["Original invoice", "Usage records"] }
  else if category = "Internet" then
    { base with
      DeductibleAmount := round2 (total * work_use_decimal)
      ClaimMethod := "Actual Cost Method (" ++ wupStr ++ "% work use)"
      ClaimNotes := "NOT claimable if using Fixed Rate Method"
      AtoReference := "Home Phone and Internet Expenses"
      RequiresDocumentation := ["Invoice with breakdown", "Evidence of work use"] }
  else if category = "Phone & Mobile" then
    { base with
      DeductibleAmount := round2 (total * work_use_decimal)
      ClaimMethod := "Actual Cost Method (" ++ wupStr ++ "% work use)"
      ClaimNotes := "Must have itemized bills showing work calls"
      AtoReference := "Home Phone and Internet Expenses"
      RequiresDocumentation := ["Itemized phone bill", "Call log analysis"] }
  else if category = "Software & Subscriptions" then
    if total ≤ 300 then
      { base with
        DeductibleAmount := round2 (total * work_use_decimal)
        ClaimMethod := "Immediate Deduction (Under $300)"
        ClaimNotes := "Verify work-related purpose in vendor name/description"
        AtoReference := "Computers, Laptops and Software"
        RequiresDocumentation := ["Invoice", "Evidence of work-related use"] }
    else
      { base with
        DeductibleAmount := round2 (total * work_use_decimal / 2)
        ClaimMethod := "Decline in Value (Over $300 - Depreciation Required)"
        ClaimNotes := "Use ATO Depreciation Tool to calculate. Typical: 2-3 years"
        AtoReference := "Depreciation - Assets over $300"
        RequiresDocumentation := ["Invoice", "Evidence of work-related use"] }
  else if category = "Computer Equipment" then
    if total ≤ 300 then
      { base with
        DeductibleAmount := round2 (total * work_use_decimal)
        ClaimMethod := "Immediate Deduction (Under $300)"
        ClaimNotes := "Work-related portion only (" ++ wupStr ++ "%)"
        RequiresDocumentation := ["Invoice", "Purchase receipt", "Depreciation calculation"] }
    else
      { base with
        DeductibleAmount := round2 (total * work_use_decimal / 3)
        ClaimMethod := "Decline in Value (Over $300 - Depreciation)"
        ClaimNotes := "Typical effective life for computers: 2-4 years. Use ATO tool"
        AtoReference := "Depreciation - Assets over $300"
        RequiresDocumentation := ["Invoice", "Purchase receipt", "Depreciation calculation"] }
  else if category = "Professional Development" then
    { base with
      DeductibleAmount := total
      WorkUsePercentage := 100
      ClaimMethod := "Full Deduction (100%)"
      ClaimNotes := "Must directly relate to current employment and improve current skills"
      AtoReference := "Training and Education"
      RequiresDocumentation := ["Course invoice", "Evidence of course content", "Relevance to role"] }
  else if category = "Professional Membership" then
    { base with
      DeductibleAmount := total
      WorkUsePercentage := 100
      ClaimMethod := "Full Deduction (100%)"
      ClaimNotes := "Must be relevant to your IT profession"
      AtoReference := "Professional Memberships and Accreditations"
      RequiresDocumentation := ["Invoice", "Membership certificate"] }
  else if category = "Office Supplies" then
    { base with
      DeductibleAmount := round2 (total * work_use_decimal)
      ClaimMethod := "Actual Cost Method (" ++ wupStr ++ "%) OR included in Fixed Rate"
      ClaimNotes := "Covered by Fixed Rate Method if using that approach"
      AtoReference := "Home Office Expenses"
      RequiresDocumentation := ["Invoice", "Usage records"] }
  else if category = "Communication Tools" then
    { base with
      DeductibleAmount := round2 (total * work_use_decimal)
      ClaimMethod := "Actual Cost Method (" ++ wupStr ++ "% work use)"
      AtoReference := "Home Phone and Internet Expenses"
      RequiresDocumentation := ["Invoice", "Usage analysis"] }
  else
    { base with
      DeductibleAmount := 0
      ClaimMethod := "Manual Review Required"
      ClaimNotes := "Consult tax professional to determine deductibility"
      AtoReference := "Other Operating Expenses"
      RequiresDocumentation := ["Full documentation", "Professional advice"] }

/-- A representative rule with a $300 threshold, 3-year depreciation and work-use
applicability, as the ATO rule table supplies for equipment categories. -/
def exThresholdRule : CategoryRule :=
  { work_use_applicable := true, threshold := some 300, depreciation_years := some 3,
    claim_method := none, claim_notes := some "", ato_reference := none,
    required_documentation := [] }

/-!
## PDF extraction chain (`extractors/pdf_extractor.py`)

`PDFExtractor.extract_text` (lines 61–103) tries PyMuPDF, pdfplumber, pypdf,
EasyOCR and Tesseract OCR in that fixed order.  Each `_extract_with_*` helper
(lines 105–213) is modelled by the raw text its library produced (`none` standing
for an exception or no output) together with the helper's acceptance test
`text and len(text.strip()) > 50` — every helper of this file, the two OCR ones
included, uses the same 50-character minimum.  `invoked` records, in order, the
stages whose helper actually ran.
-/

/-- The chain's outcome: `(extracted_text, method_used)` as returned by
`extract_text`, plus the instrumented list of stages whose helper actually ran. -/
structure ExtractionResult where
  text : Option String
  method : String
  invoked : List String
  deriving DecidableEq, Repr

/-- One stage of the chain: method name, the label `extract_text` reports on
success, the library-availability flag guarding the stage, and the raw text the
stage's library would produce. -/
structure PdfStage where
  name : String
  label : String
  available : Bool
  raw : Option String
  deriving DecidableEq, Repr

/-- The acceptance test shared by every `_extract_with_*` helper of
pdf_extractor.py: `text and len(text.strip()) > minLen`. -/
def accept_ok (minLen : Nat) (raw : Option String) : Bool :=
  match raw with
  | none => false
  | some t => (t != "") && (decide (minLen < (pyStrip t).length))

/-- Whether a stage would run and accept. -/
def stageHit (s : PdfStage) : Bool :=
  s.available && accept_ok 50 s.raw

/-- The fallback loop of `PDFExtractor.extract_text`: skip unavailable stages, run
the first available one, return its raw text and label if accepted, fall through
otherwise; `(None, "All extraction methods failed")` when every stage is
exhausted. -/
def runChain : List PdfStage → ExtractionResult
  | [] => ⟨none, "All extraction methods failed", []⟩
  | s :: rest =>
    if s.available then
      if accept_ok 50 s.raw then ⟨s.raw, s.label, [s.name]⟩
      else
        let r := runChain rest
        ⟨r.text, r.method, s.name :: r.invoked⟩
    else runChain rest

/-- The availability snapshot and per-library raw outputs for one file. -/
structure PdfEnv where
  file_exists : Bool
  pymupdf_available : Bool
  pdfplumber_available : Bool
  pypdf_available : Bool
  easyocr_available : Bool
  pytesseract_available : Bool
  pdf2image_available : Bool
  pymupdf_text : Option String
  pdfplumber_text : Option String
  pypdf_text : Option String
  easyocr_text : Option String
  tesseract_text : Option String
  deriving DecidableEq, Repr

/-- Stages 1–3 (native-text readers), in source order. -/
def nativeStages (env : PdfEnv) : List PdfStage :=
  [⟨"PyMuPDF", "PyMuPDF (native text)", env.pymupdf_available, env.pymupdf_text⟩,
   ⟨"pdfplumber", "pdfplumber (native text)", env.pdfplumber_available, env.pdfplumber_text⟩,
   ⟨"pypdf", "pypdf (native text)", env.pypdf_available, env.pypdf_text⟩]

/-- Stages 4–5 (OCR tier); each is guarded by its own library *and* `pdf2image`. -/
def ocrStages (env : PdfEnv) : List PdfStage :=
  [⟨"EasyOCR", "EasyOCR", env.easyocr_available && env.pdf2image_available, env.easyocr_text⟩,
   ⟨"Tesseract", "Tesseract OCR", env.pytesseract_available && env.pdf2image_available,
     env.tesseract_text⟩]

def pdfStages (env : PdfEnv) : List PdfStage :=
  nativeStages env ++ ocrStages env

/-- `PDFExtractor.extract_text` (pdf_extractor.py 61–103). -/
def pdf_extract_text (env : PdfEnv) : ExtractionResult :=
  if env.file_exists = false then ⟨none, "File not found", []⟩
  else runChain (pdfStages env)

/-- Following the spec's words (§4.2, claim C4) for comparison with the code: a
stage carries its method-class minimum — 50 characters for the document-native
readers, 20 for the OCR tier — and exhaustion reports
`(None, "all extraction methods failed")`. -/
structure SpecStage where
  name : String
  label : String
  available : Bool
  raw : Option String
  minLen : Nat
  deriving DecidableEq, Repr

/-- The fallback loop as the spec describes it (per-stage minima). -/
def runChainSpec : List SpecStage → Option String × String
  | [] => (none, "all extraction methods failed")
  | s :: rest =>
    if s.available then
      if accept_ok s.minLen s.raw then (s.raw, s.label)
      else runChainSpec rest
    else runChainSpec rest

/-- The PDF chain with the minima the spec attributes to each method class. -/
def pdfStagesSpec (env : PdfEnv) : List SpecStage :=
  [⟨"PyMuPDF", "PyMuPDF (native text)", env.pymupdf_available, env.pymupdf_text, 50⟩,
   ⟨"pdfplumber", "pdfplumber (native text)", env.pdfplumber_available, env.pdfplumber_text, 50⟩,
   ⟨"pypdf", "pypdf (native text)", env.pypdf_available, env.pypdf_text, 50⟩,
   ⟨"EasyOCR", "EasyOCR", env.easyocr_available && env.pdf2image_available,
     env.easyocr_text, 20⟩,
   ⟨"Tesseract", "Tesseract OCR", env.pytesseract_available && env.pdf2image_available,
     env.tesseract_text, 20⟩]

/-- The spec's version of `extract_text`. -/
def pdf_extract_text_spec (env : PdfEnv) : Option String × String :=
  if env.file_exists = false then (none, "File not found")
  else runChainSpec (pdfStagesSpec env)

/-- A PDF whose native readers produce nothing (the PyMuPDF helper catches its
exception; pdfplumber/pypdf are not installed) and whose EasyOCR pass reads 30
characters of text. -/
def exPdfEnv : PdfEnv :=
  { file_exists := true
    pymupdf_available := true, pdfplumber_available := false, pypdf_available := false
    easyocr_available := true, pytesseract_available := false, pdf2image_available := true
    pymupdf_text := none, pdfplumber_text := none, pypdf_text := none
    easyocr_text := some "Invoice 12345 total due $45.00", tesseract_text := none }

/-- A PDF whose PyMuPDF pass yields 72 characters of native text; EasyOCR and
Tesseract are installed but must never run. -/
def exPdfOkEnv : PdfEnv :=
  { file_exists := true
    pymupdf_available := true, pdfplumber_available := true, pypdf_available := true
    easyocr_available := true, pytesseract_available := true, pdf2image_available := true
    pymupdf_text := some "Tax Invoice 0001 - Example Vendor Pty Ltd - Total due AUD 123.45 (GST)"
    pdfplumber_text := none, pypdf_text := none
    easyocr_text := none, tesseract_text := none }

/-!
## Cache and failure tracking (`utils/cache_manager.py`)

`CacheManager.cache` and `FailedFilesManager.failed_files` are JSON arrays held in
memory; the embeddings are the in-memory lists, with `now` (the
`datetime.now().strftime(...)` timestamp) passed explicitly.
-/

/-- One entry of `CacheManager.cache` as written by `add_entry`
(cache_manager.py 48–59). -/
structure CacheRecord where
  FileName : String
  FileHash : String
  ProcessedDate : String
  ExtractedData : InvoiceFields
  Category : String
  Deduction : DeductionResult
  deriving DecidableEq, Repr

/-- `CacheManager.find_by_hash` (cache_manager.py 41–46): first entry whose
`FileHash` matches. -/
def find_by_hash (cache : List CacheRecord) (file_hash : String) : Option CacheRecord :=
  cache.find? (fun e => e.FileHash == file_hash)

/-- `CacheManager.add_entry` (cache_manager.py 48–59): append one record. -/
def cache_add_entry (cache : List CacheRecord) (file_name file_hash now : String)
    (extracted_data : InvoiceFields) (category : String)
    (deduction : DeductionResult) : List CacheRecord :=
  cache ++ [⟨file_name, file_hash, now, extracted_data, category, deduction⟩]

/-- One entry of `FailedFilesManager.failed_files` (cache_manager.py 130–137). -/
structure FailureRecord where
  FilePath : String
  FileName : String
  ErrorReason : String
  AttemptCount : ℤ
  FirstAttempt : String
  LastAttempt : String
  deriving DecidableEq, Repr

/-- `FailedFilesManager.find_by_path` (cache_manager.py 114–119): first entry
whose `FilePath` matches. -/
def find_by_path (fs : List FailureRecord) (path : String) : Option FailureRecord :=
  fs.find? (fun e => e.FilePath == path)

/-- The in-place mutation `add_failure` performs on the record `find_by_path`
returned: replace `AttemptCount`, `LastAttempt` and `ErrorReason`
(cache_manager.py 126–128). -/
def updateFailureRecord (e : FailureRecord) (reason : String) (count : ℤ)
    (now : String) : FailureRecord :=
  { e with AttemptCount := count, LastAttempt := now, ErrorReason := reason }

/-- Apply `updateFailureRecord` to the first record with the given path (the one
`find_by_path` returns and Python mutates), leaving every other record as is. -/
def updateFirstFailure (path reason : String) (count : ℤ) (now : String) :
    List FailureRecord → List FailureRecord
  | [] => []
  | e :: rest =>
    if e.FilePath == path then updateFailureRecord e reason count now :: rest
    else e :: updateFirstFailure path reason count now rest

/-- `FailedFilesManager.add_failure` (cache_manager.py 121–138): update the
existing record for the path in place, or append one new record. -/
def add_failure (fs : List FailureRecord) (path name reason : String)
    (count : ℤ) (now : String) : List FailureRecord :=
  match find_by_path fs path with
  | some _ => updateFirstFailure path reason count now fs
  | none => fs ++ [⟨path, name, reason, count, now, now⟩]

/-- `FailedFilesManager.remove_failure` (cache_manager.py 140–145). -/
def remove_failure (fs : List FailureRecord) (path : String) : List FailureRecord :=
  fs.filter (fun e => !(e.FilePath == path))

/-- `FailedFilesManager.get_retry_candidates` (cache_manager.py 147–152): entries
whose `AttemptCount` is strictly below `max_attempts`. -/
def get_retry_candidates (fs : List FailureRecord) (max_attempts : ℤ) :
    List FailureRecord :=
  fs.filter (fun e => decide (e.AttemptCount < max_attempts))

/-- The failure tracker's intended shape: at most one record per file path. -/
def pathsUnique (fs : List FailureRecord) : Prop :=
  ∀ p, (fs.filter (fun e => e.FilePath == p)).length ≤ 1

/-!
## FileProcessor (`core/file_processor.py`)

`process_file` (lines 269–396) is embedded as a state-passing function.  The
collaborators the orchestrator drives are presented through `ProcEnv`: what the
extraction chain would return for this file (`extract_text`/`extract_method`),
what the external structured-extraction service would return (`llm_result`), the
destinations `move_processed_file`/`move_non_invoice` would pick, and the hash
`CacheManager.calculate_file_hash` computed.  The boolean flags of
`ProcessOutcome` are set on exactly the code paths where the Python invokes the
extraction chain (line 299), the LLM service (line 328), `move_processed_file`
(line 364) and `move_non_invoice` (line 323).
-/

structure ProcConfig where
  max_retry_attempts : ℤ
  work_use_percentage : ℤ
  fixed_rate_hourly_str : String
  deriving DecidableEq, Repr

structure ProcEnv where
  file_name : String
  file_suffix : String
  file_path : String
  now : String
  file_hash : Option String
  extract_text : Option String
  extract_method : String
  llm_result : Option InvoiceFields
  moved_path : String
  non_invoice_moved_path : String
  deriving DecidableEq, Repr

/-- One catalog entry, with the exact keys of the dictionaries built by
`_create_cached_entry` / `_create_non_invoice_entry` / `_create_success_entry` /
`_create_failed_entry`. -/
structure CatalogEntry where
  FileName : String
  FileType : String
  FilePath : String
  OriginalPath : String
  ProcessedDateTime : String
  VendorName : String
  VendorABN : String
  InvoiceNumber : String
  InvoiceDate : String
  DueDate : String
  SubTotal : ℚ
  Tax : ℚ
  TotalAmount : ℚ
  Currency : String
  Category : String
  WorkUsePercentage : ℚ
  DeductibleAmount : ℚ
  ClaimMethod : String
  ClaimNotes : String
  AtoReference : String
  RequiresDocumentation : List String
  ProcessingStatus : String
  FileHash : String
  MovedTo : String
  NeedsManualReview : Bool
  MissingFields : List String
  deriving DecidableEq, Repr

/-- `FileProcessor._check_missing_fields` (file_processor.py 551–576). -/
def check_missing_fields (d : InvoiceFields) : Bool × List String :=
  let missing_fields : List String :=
    (if pyStrip d.vendor_name = "" then ["Vendor Name"] else []) ++
    (if pyStrip d.invoice_date = "" then ["Invoice Date"] else []) ++
    (if d.total = 0 then ["Total Amount"] else []) ++
    (if pyStrip d.invoice_number = "" then ["Invoice Number (bonus)"] else [])
  let needs_review := decide
    (0 < (missing_fields.filter (fun f => !(strContains f "(bonus)"))).length)
  (needs_review, missing_fields)

/-- `FileProcessor._is_non_invoice` (file_processor.py 528–549). -/
def is_non_invoice (extracted_data : Option InvoiceFields) (text : String) :
    Bool × String :=
  match extracted_data with
  | none =>
    if (pyStrip text).length < 50 then
      (true, "Too little text content (likely logo/signature)")
    else (false, "")
  | some d =>
    let vendor := pyStrip d.vendor_name
    if vendor = "" ∧ d.total = 0 then
      (true, "No vendor name and no amount (likely non-invoice image)")
    else (false, "")

/-- `FileProcessor._create_cached_entry` (file_processor.py 398–428). -/
def create_cached_entry (env : ProcEnv) (file_hash : String)
    (cached_entry : CacheRecord) : CatalogEntry :=
  { FileName := env.file_name
    FileType := env.file_suffix
    FilePath := env.file_path
    OriginalPath := env.file_path
    ProcessedDateTime := env.now
    VendorName := cached_entry.ExtractedData.vendor_name
    VendorABN := cached_entry.ExtractedData.vendor_abn
    InvoiceNumber := cached_entry.ExtractedData.invoice_number
    InvoiceDate := cached_entry.ExtractedData.invoice_date
    DueDate := cached_entry.ExtractedData.due_date
    SubTotal := cached_entry.ExtractedData.subtotal
    Tax := cached_entry.ExtractedData.tax
    TotalAmount := cached_entry.ExtractedData.total
    Currency := cached_entry.ExtractedData.currency
    Category := cached_entry.Category
    WorkUsePercentage := cached_entry.Deduction.WorkUsePercentage
    DeductibleAmount := cached_entry.Deduction.DeductibleAmount
    ClaimMethod := cached_entry.Deduction.ClaimMethod
    ClaimNotes := cached_entry.Deduction.ClaimNotes
    AtoReference := cached_entry.Deduction.AtoReference
    RequiresDocumentation := cached_entry.Deduction.RequiresDocumentation
    ProcessingStatus := "Cached (Duplicate)"
    FileHash := file_hash
    MovedTo := "N/A - Duplicate"
    NeedsManualReview := false
    MissingFields := [] }

/-- `FileProcessor._create_non_invoice_entry` (file_processor.py 430–460). -/
def create_non_invoice_entry (env : ProcEnv) (file_hash moved_path reason : String) :
    CatalogEntry :=
  { FileName := env.file_name
    FileType := env.file_suffix
    FilePath := moved_path
    OriginalPath := env.file_path
    ProcessedDateTime := env.now
    VendorName := "N/A"
    VendorABN := ""
    InvoiceNumber := ""
    InvoiceDate := ""
    DueDate := ""
    SubTotal := 0
    Tax := 0
    TotalAmount := 0
    Currency := "AUD"
    Category := "Non-Invoice"
    WorkUsePercentage := 0
    DeductibleAmount := 0
    ClaimMethod := "Not Applicable"
    ClaimNotes := reason
    AtoReference := "N/A"
    RequiresDocumentation := []
    ProcessingStatus := "Non-Invoice"
    FileHash := file_hash
    MovedTo := moved_path
    NeedsManualReview := false
    MissingFields := [] }

/-- `FileProcessor._create_success_entry` (file_processor.py 462–494). -/
def create_success_entry (env : ProcEnv) (file_hash moved_path : String)
    (extracted_data : InvoiceFields) (category : String)
    (deduction : DeductionResult) (needs_manual_review : Bool)
    (missing_fields : List String) : CatalogEntry :=
  { FileName := env.file_name
    FileType := env.file_suffix
    FilePath := moved_path
    OriginalPath := env.file_path
    ProcessedDateTime := env.now
    VendorName := extracted_data.vendor_name
    VendorABN := extracted_data.vendor_abn
    InvoiceNumber := extracted_data.invoice_number
    InvoiceDate := extracted_data.invoice_date
    DueDate := extracted_data.due_date
    SubTotal := extracted_data.subtotal
    Tax := extracted_data.tax
    TotalAmount := extracted_data.total
    Currency := extracted_data.currency
    Category := category
    WorkUsePercentage := deduction.WorkUsePercentage
    DeductibleAmount := deduction.DeductibleAmount
    ClaimMethod := deduction.ClaimMethod
    ClaimNotes := deduction.ClaimNotes
    AtoReference := deduction.AtoReference
    RequiresDocumentation := deduction.RequiresDocumentation
    ProcessingStatus := "Success"
    FileHash := file_hash
    MovedTo := moved_path
    NeedsManualReview := needs_manual_review
    MissingFields := missing_fields }

/-- `FileProcessor._create_failed_entry` (file_processor.py 496–526). -/
def create_failed_entry (env : ProcEnv) (file_hash error_reason status : String) :
    CatalogEntry :=
  { FileName := env.file_name
    FileType := env.file_suffix
    FilePath := env.file_path
    OriginalPath := env.file_path
    ProcessedDateTime := env.now
    VendorName := "N/A"
    VendorABN := ""
    InvoiceNumber := ""
    InvoiceDate := ""
    DueDate := ""
    SubTotal := 0
    Tax := 0
    TotalAmount := 0
    Currency := "AUD"
    Category := "Non-Invoice/Other"
    WorkUsePercentage := 0
    DeductibleAmount := 0
    ClaimMethod := "Not Applicable"
    ClaimNotes := error_reason
    AtoReference := "N/A"
    RequiresDocumentation := ["Manual review required"]
    ProcessingStatus := status
    FileHash := file_hash
    MovedTo := "N/A - Not moved"
    NeedsManualReview := true
    MissingFields := [] }

/-- The mutable state the orchestrator threads through a run. -/
structure PipelineState where
  cache : List CacheRecord
  failed : List FailureRecord
  deriving DecidableEq, Repr

/-- The result of one `process_file` call: the emitted catalog entry (if any),
the updated cache/failure state, and which collaborators were invoked. -/
structure ProcessOutcome where
  entry : Option CatalogEntry
  state : PipelineState
  extraction_called : Bool
  llm_called : Bool
  moved_processed : Bool
  moved_non_invoice : Bool
  deriving DecidableEq, Repr

/-- `FileProcessor.process_file` (file_processor.py 269–396). -/
def process_file (cfg : ProcConfig) (env : ProcEnv) (st : PipelineState)
    (reprocess : Bool) : ProcessOutcome :=
  match env.file_hash with
  | none => ⟨none, st, false, false, false, false⟩
  | some file_hash =>
    match (if reprocess then none else find_by_hash st.cache file_hash) with
    | some cached_entry =>
      ⟨some (create_cached_entry env file_hash cached_entry), st,
       false, false, false, false⟩
    | none =>
      let failed_entry := find_by_path st.failed env.file_path
      if (match failed_entry with
          | some fe => decide (cfg.max_retry_attempts ≤ fe.AttemptCount)
          | none => false) then
        ⟨some (create_failed_entry env file_hash "Skipped - Too many failures"
            "Skipped (Max retries exceeded)"), st, false, false, false, false⟩
      else
        if env.extract_text = none ∨ (pyStrip (env.extract_text.getD "")).length < 10 then
          let attempt_count :=
            match failed_entry with
            | some fe => fe.AttemptCount + 1
            | none => 1
          let failed' := add_failure st.failed env.file_path env.file_name
            ("No text content extracted (" ++ env.extract_method ++ ")")
            attempt_count env.now
          ⟨some (create_failed_entry env file_hash "No text content extracted"
              "Failed (No text)"),
           ⟨st.cache, failed'⟩, true, false, false, false⟩
        else
          let text := env.extract_text.getD ""
          if (is_non_invoice none text).1 then
            ⟨some (create_non_invoice_entry env file_hash env.non_invoice_moved_path
                (is_non_invoice none text).2),
             st, true, false, false, true⟩
          else
            match env.llm_result with
            | none =>
              let attempt_count :=
                match failed_entry with
                | some fe => fe.AttemptCount + 1
                | none => 1
              let failed' := add_failure st.failed env.file_path env.file_name
                "AI extraction failed" attempt_count env.now
              ⟨some (create_failed_entry env file_hash "AI extraction failed"
                  "Failed (AI extraction)"),
               ⟨st.cache, failed'⟩, true, true, false, false⟩
            | some extracted_data =>
              let needs_manual_review := (check_missing_fields extracted_data).1
              let missing_fields := (check_missing_fields extracted_data).2
              let category := categorize extracted_data.vendor_name
                extracted_data.description extracted_data.line_items
              let deduction := legacy_calculate_deduction cfg.work_use_percentage
                cfg.fixed_rate_hourly_str extracted_data category
              let cache' := cache_add_entry st.cache env.file_name file_hash env.now
                extracted_data category deduction
              let failed' := if failed_entry.isSome then
                  remove_failure st.failed env.file_path
                else st.failed
              ⟨some (create_success_entry env file_hash env.moved_path extracted_data
                  category deduction needs_manual_review missing_fields),
               ⟨cache', failed'⟩, true, true, true, false⟩

/-- The concrete failure tracker used by the C7 witness: one prior failure. -/
def exFailed : List FailureRecord :=
  [⟨"/inbox/a.pdf", "a.pdf", "No text content extracted", 1, "t0", "t0"⟩]

def exSkipCfg : ProcConfig := ⟨3, 60, "0.67"⟩

def exSkipRecord : FailureRecord :=
  ⟨"/inbox/a.pdf", "a.pdf", "No text content extracted", 3, "t0", "t1"⟩

def exSkipEnv : ProcEnv :=
  { file_name := "a.pdf", file_suffix := ".pdf", file_path := "/inbox/a.pdf",
    now := "t2", file_hash := some "h1",
    extract_text := some "irrelevant", extract_method := "PyMuPDF (native text)",
    llm_result := none, moved_path := "", non_invoice_moved_path := "" }

def exSkipState : PipelineState := ⟨[], [exSkipRecord]⟩

/-- The invoice-field content of a catalog entry (the InvoiceFields that
`_create_success_entry` / `_create_cached_entry` copied into it). -/
def invoiceView (e : CatalogEntry) : InvoiceFields :=
  ⟨e.VendorName, e.VendorABN, e.InvoiceNumber, e.InvoiceDate, e.DueDate,
   e.SubTotal, e.Tax, e.TotalAmount, e.Currency, "", []⟩

/-- The deduction content of a catalog entry. -/
def deductionView (e : CatalogEntry) : ℚ × ℚ × String × String × String × List String :=
  (e.WorkUsePercentage, e.DeductibleAmount, e.ClaimMethod, e.ClaimNotes,
   e.AtoReference, e.RequiresDocumentation)

def exNonInvData : InvoiceFields :=
  ⟨"", "", "", "2024-03-01", "", 0, 0, 0, "AUD", "", []⟩

def exNonInvEnv : ProcEnv :=
  { file_name := "scan.pdf", file_suffix := ".pdf", file_path := "/inbox/scan.pdf",
    now := "t0", file_hash := some "h9",
    extract_text := some
      "Scanned page with plenty of text but no vendor and no total amount.",
    extract_method := "PyMuPDF (native text)",
    llm_result := some exNonInvData,
    moved_path := "/out/Other/Unknown/scan.pdf",
    non_invoice_moved_path := "/out/Non-Invoice/scan.pdf" }

def exLogoEnv : ProcEnv :=
  { file_name := "logo.pdf", file_suffix := ".pdf", file_path := "/inbox/logo.pdf",
    now := "t0", file_hash := some "hL",
    extract_text := some "Company logo image", extract_method := "EasyOCR",
    llm_result := none,
    moved_path := "/out/x", non_invoice_moved_path := "/out/Non-Invoice/logo.pdf" }

def exReviewData : InvoiceFields :=
  ⟨"Telstra", "", "INV-9", "", "", 0, 0, 55, "AUD", "internet service", []⟩

def exReviewEnv1 : ProcEnv :=
  { file_name := "inv9.pdf", file_suffix := ".pdf", file_path := "/inbox/inv9.pdf",
    now := "t1", file_hash := some "hash9",
    extract_text := some
      "Tax Invoice INV-9 Telstra internet service amount due AUD 55.00 date missing",
    extract_method := "PyMuPDF (native text)",
    llm_result := some exReviewData,
    moved_path := "/out/Internet/Unknown/inv9.pdf",
    non_invoice_moved_path := "/out/Non-Invoice/inv9.pdf" }

def exReviewEnv2 : ProcEnv :=
  { exReviewEnv1 with
    file_name := "inv9 (copy).pdf",
    file_path := "/inbox/dup/inv9 (copy).pdf", now := "t2",
    extract_text := none, extract_method := "", llm_result := none }

def exDupData : InvoiceFields :=
  ⟨"Telstra", "12 345 678 901", "INV-42", "2024-01-15", "", 90.91, 9.09, 100, "AUD",
   "Monthly internet service", []⟩

def exDupEnv1 : ProcEnv :=
  { file_name := "inv42.pdf", file_suffix := ".pdf", file_path := "/inbox/inv42.pdf",
    now := "t1", file_hash := some "hash42",
    extract_text := some
      "Tax Invoice INV-42 Telstra monthly internet service total AUD 100.00",
    extract_method := "PyMuPDF (native text)",
    llm_result := some exDupData,
    moved_path := "/out/Internet/2024-01/inv42.pdf",
    non_invoice_moved_path := "/out/Non-Invoice/inv42.pdf" }

def exDupEnv2 : ProcEnv :=
  { exDupEnv1 with
    file_name := "inv42 (copy).pdf",
    file_path := "/inbox/dup/inv42 (copy).pdf", now := "t2",
    extract_text := none, extract_method := "", llm_result := none }

/-!
## Theorems
-/

/-- C2: the claim's override precedence is violated by the code in `src`: the
`categorize` of categorizer.py ignores vendor overrides entirely (the class cannot
even be constructed with the `vendor_overrides` argument its own test script
passes).  With an enabled override `"telstra" → "Internet"`, vendor `"Telstra"`
and description `"coffee"`, the code returns `"Food & Groceries"` (the keyword hit
`"coffee"` in the first category of the table), while the claim requires
`"Internet"`. -/
theorem categorize_ignores_vendor_overrides :
    categorize "Telstra" "coffee" [] = "Food & Groceries" ∧
    categorize_with_overrides [⟨"telstra", "Internet", true⟩] "Telstra" "coffee" []
      = "Internet" := by
  constructor <;> decide

/-- Rounding lemma: away from a tie, half-to-even rounding returns the unique
nearest integer — it lies strictly within half a unit of its argument. -/
theorem roundHalfEvenZ_bounds (q : ℚ) (h : ¬ isHalfTie q) :
    (roundHalfEvenZ q : ℚ) - 1/2 < q ∧ q < (roundHalfEvenZ q : ℚ) + 1/2 := by
  have hfl : ((⌊q⌋ : ℤ) : ℚ) ≤ q := Int.floor_le q
  have hfu : q < ⌊q⌋ + 1 := Int.lt_floor_add_one q
  simp only [roundHalfEvenZ]
  split_ifs with hr1 hr2 hp
  · constructor <;> linarith
  · push_cast
    constructor <;> linarith
  · exact absurd (le_antisymm (not_lt.mp hr2) (not_lt.mp hr1)) h
  · exact absurd (le_antisymm (not_lt.mp hr2) (not_lt.mp hr1)) h

/-- Rounding lemma: away from a tie, any integer strictly within half a unit of
the argument is the rounding result. -/
theorem roundHalfEvenZ_eq_of_near (q : ℚ) (n : ℤ) (h : ¬ isHalfTie q)
    (hl : (n:ℚ) - 1/2 < q) (hu : q < (n:ℚ) + 1/2) :
    roundHalfEvenZ q = n := by
  have hb := roundHalfEvenZ_bounds q h
  have h1 : ((roundHalfEvenZ q : ℤ) : ℚ) < (n:ℚ) + 1 := by linarith [hb.1]
  have h2 : (n:ℚ) < ((roundHalfEvenZ q : ℤ) : ℚ) + 1 := by linarith [hb.2]
  have h1' : roundHalfEvenZ q < n + 1 := by exact_mod_cast h1
  have h2' : n < roundHalfEvenZ q + 1 := by exact_mod_cast h2
  omega

/-- Double-rounding stability: with a positive integer divisor and no rounding
step landing on a tie, rounding before the division does not change the rounded
quotient.  The key step is that the rounded dividend divided by `y` keeps an
integrality margin of `1/(2y)` to the nearest rounding boundary. -/
theorem roundHalfEvenZ_div_stable (a : ℚ) (y : ℤ) (hy : 0 < y)
    (h1 : ¬ isHalfTie a)
    (h2 : ¬ isHalfTie ((roundHalfEvenZ a : ℚ) / (y:ℚ)))
    (h3 : ¬ isHalfTie (a / (y:ℚ))) :
    roundHalfEvenZ (a / (y:ℚ)) = roundHalfEvenZ ((roundHalfEvenZ a : ℚ) / (y:ℚ)) := by
  have hyQ : (0:ℚ) < (y:ℚ) := by exact_mod_cast hy
  have hA := roundHalfEvenZ_bounds a h1
  have hB := roundHalfEvenZ_bounds ((roundHalfEvenZ a : ℚ) / (y:ℚ)) h2
  set m := roundHalfEvenZ a with hm
  set n := roundHalfEvenZ ((m:ℚ) / (y:ℚ)) with hn
  have hm1 : 2*m < y*(2*n+1) := by
    have hlt : (m:ℚ) / (y:ℚ) < (n:ℚ) + 1/2 := hB.2
    rw [div_lt_iff₀ hyQ] at hlt
    have : (2:ℚ)*(m:ℚ) < (y:ℚ)*(2*(n:ℚ)+1) := by nlinarith
    exact_mod_cast this
  have hm2 : y*(2*n-1) < 2*m := by
    have hlt : (n:ℚ) - 1/2 < (m:ℚ) / (y:ℚ) := hB.1
    rw [lt_div_iff₀ hyQ] at hlt
    have : (y:ℚ)*(2*(n:ℚ)-1) < 2*(m:ℚ) := by nlinarith
    exact_mod_cast this
  have hm1' : 2*m + 1 ≤ y*(2*n+1) := by omega
  have hm2' : y*(2*n-1) + 1 ≤ 2*m := by omega
  have hq1 : (2:ℚ)*(m:ℚ) + 1 ≤ (y:ℚ)*(2*(n:ℚ)+1) := by exact_mod_cast hm1'
  have hq2 : (y:ℚ)*(2*(n:ℚ)-1) + 1 ≤ (2:ℚ)*(m:ℚ) := by exact_mod_cast hm2'
  refine roundHalfEvenZ_eq_of_near _ n h3 ?_ ?_
  · rw [lt_div_iff₀ hyQ]
    nlinarith [hA.1]
  · rw [div_lt_iff₀ hyQ]
    nlinarith [hA.2]

/-- Double-rounding stability at two decimal places: the code's
`round(round(x, 2) / y, 2)` equals `round(x / y, 2)` away from half-cent ties. -/
theorem round2_div_stable (x : ℚ) (y : ℤ) (hy : 0 < y)
    (h1 : ¬ isHalfTie (x * 100))
    (h2 : ¬ isHalfTie ((roundHalfEvenZ (x * 100) : ℚ) / (y:ℚ)))
    (h3 : ¬ isHalfTie (x * 100 / (y:ℚ))) :
    round2 (round2 x / (y:ℚ)) = round2 (x / (y:ℚ)) := by
  have hy0 : (y:ℚ) ≠ 0 := ne_of_gt (by exact_mod_cast hy)
  simp only [round2]
  have e1 : (roundHalfEvenZ (x*100) : ℚ) / 100 / (y:ℚ) * 100
      = (roundHalfEvenZ (x*100) : ℚ) / (y:ℚ) := by
    field_simp
    ring
  have e2 : x / (y:ℚ) * 100 = x * 100 / (y:ℚ) := by ring
  rw [e1, e2, roundHalfEvenZ_div_stable (x*100) y hy h1 h2 h3]

/-- C3: for every category rule with a threshold present and work_use_applicable
true: at or under the threshold the immediate-deduction branch returns
`round(total × wup/100, 2)`; above it the decline-in-value branch returns
`round((total × wup/100) ÷ depreciation_years, 2)`; and the claim-method label
discloses which branch was taken.  The code computes the decline branch as
`round(round(total × wup/100, 2) ÷ years, 2)`; the tie-freeness hypotheses say
no rounding step lands exactly on a half-cent, under which the two expressions
provably coincide — exact half-cent ties cannot arise from the binary
floating-point values the program actually manipulates, only from the
exact-decimal idealization. -/
theorem ato_threshold_branching (category : String) (total wup threshold : ℚ)
    (rule : CategoryRule)
    (hth : rule.threshold = some threshold)
    (hwu : rule.work_use_applicable = true)
    (hyears : 0 < rule.depreciation_years.getD 3)
    (t1 : ¬ isHalfTie (total * (wup / 100) * 100))
    (t2 : ¬ isHalfTie ((roundHalfEvenZ (total * (wup / 100) * 100) : ℚ)
        / ((rule.depreciation_years.getD 3 : ℤ) : ℚ)))
    (t3 : ¬ isHalfTie (total * (wup / 100) * 100
        / ((rule.depreciation_years.getD 3 : ℤ) : ℚ))) :
    (total ≤ threshold →
      (calculate_by_rule category total wup rule).DeductibleAmount
          = round2 (total * (wup / 100)) ∧
      (calculate_by_rule category total wup rule).ClaimMethod
          = "Immediate Deduction (Under $" ++ toString (roundHalfEvenZ threshold) ++ ")") ∧
    (¬ total ≤ threshold →
      (calculate_by_rule category total wup rule).DeductibleAmount
          = round2 (total * (wup / 100) / ((rule.depreciation_years.getD 3 : ℤ) : ℚ)) ∧
      (calculate_by_rule category total wup rule).ClaimMethod
          = "Decline in Value (Over $" ++ toString (roundHalfEvenZ threshold)
              ++ " - Depreciation)") := by
  unfold calculate_by_rule
  rw [hwu, hth]
  simp only [Bool.true_eq_false, if_false]
  constructor
  · intro hle
    unfold calculate_with_threshold
    rw [if_pos hle]
    exact ⟨rfl, rfl⟩
  · intro hgt
    unfold calculate_with_threshold
    rw [if_neg hgt]
    refine ⟨?_, rfl⟩
    show round2 (calculate_work_use_amount total wup
        / ((rule.depreciation_years.getD 3 : ℤ) : ℚ)) = _
    rw [calculate_work_use_amount]
    exact round2_div_stable (total * (wup / 100))
      (rule.depreciation_years.getD 3) hyears t1 t2 t3

unseal Rat.add Rat.sub Rat.mul Rat.inv Rat.ofScientific in
/-- C3 (witness): threshold 300, total 250.00, work-use 60 % gives 150.00 under
the "Immediate Deduction (Under $300)" label; total 900.00, 3 years, work-use
60 % gives 180.00 under "Decline in Value (Over $300 - Depreciation)"; neither
computation meets a half-cent tie. -/
theorem ato_threshold_branching_witness :
    ((250 : ℚ) ≤ 300 ∧
      (calculate_by_rule "Computer Equipment" 250 60 exThresholdRule).DeductibleAmount = 150 ∧
      (calculate_by_rule "Computer Equipment" 250 60 exThresholdRule).ClaimMethod
        = "Immediate Deduction (Under $300)") ∧
    (¬ (900 : ℚ) ≤ 300 ∧
      (calculate_by_rule "Computer Equipment" 900 60 exThresholdRule).DeductibleAmount = 180 ∧
      (calculate_by_rule "Computer Equipment" 900 60 exThresholdRule).ClaimMethod
        = "Decline in Value (Over $300 - Depreciation)") := by
  have h1 := (ato_threshold_branching "Computer Equipment" 250 60 300
    exThresholdRule rfl rfl (by decide) (by decide) (by decide) (by decide)).1
    (by decide)
  have h2 := (ato_threshold_branching "Computer Equipment" 900 60 300
    exThresholdRule rfl rfl (by decide) (by decide) (by decide) (by decide)).2
    (by decide)
  exact ⟨⟨by decide, h1.1.trans (by decide), h1.2.trans (by decide)⟩,
         ⟨by decide, h2.1.trans (by decide), h2.2.trans (by decide)⟩⟩
/-- C9: a category absent from the deduction rule table routes to the
manual-review result — deductible 0.00 and claim method "Manual Review Required" —
both in `ATOStrategy.calculate_deduction` (rule lookup returns nothing) and in the
legacy `DeductionCalculator.calculate_deduction` else-branch; the embeddings are
total functions mirroring code paths that raise no exception. -/
theorem absent_category_manual_review
    (rules : List (String × CategoryRule)) (total wup : ℚ) (category : String)
    (wupz : ℤ) (frs : String) (invoice : InvoiceFields)
    (hr : get_category_rule rules category = none)
    (hlegacy : category ∉ ["Electricity", "Internet", "Phone & Mobile",
      "Software & Subscriptions", "Computer Equipment", "Professional Development",
      "Professional Membership", "Office Supplies", "Communication Tools"]) :
    (ato_calculate_deduction rules total category wup).DeductibleAmount = 0 ∧
    (ato_calculate_deduction rules total category wup).ClaimMethod
        = "Manual Review Required" ∧
    (legacy_calculate_deduction wupz frs invoice category).DeductibleAmount = 0 ∧
    (legacy_calculate_deduction wupz frs invoice category).ClaimMethod
        = "Manual Review Required" := by
  simp only [List.mem_cons, List.not_mem_nil, or_false, not_or] at hlegacy
  obtain ⟨h1, h2, h3, h4, h5, h6, h7, h8, h9⟩ := hlegacy
  unfold ato_calculate_deduction
  rw [hr]
  refine ⟨rfl, rfl, ?_, ?_⟩ <;>
    simp [legacy_calculate_deduction, h1, h2, h3, h4, h5, h6, h7, h8, h9]

/-- C9 (witness): with an empty rule table and the category "Crypto Mining",
both engines return the manual-review outcome. -/
theorem absent_category_manual_review_witness :
    get_category_rule [] "Crypto Mining" = none ∧
    "Crypto Mining" ∉ ["Electricity", "Internet", "Phone & Mobile",
      "Software & Subscriptions", "Computer Equipment", "Professional Development",
      "Professional Membership", "Office Supplies", "Communication Tools"] ∧
    (ato_calculate_deduction [] 500 "Crypto Mining" 60).DeductibleAmount = 0 ∧
    (ato_calculate_deduction [] 500 "Crypto Mining" 60).ClaimMethod
        = "Manual Review Required" := by
  have h := absent_category_manual_review [] 500 60 "Crypto Mining" 60 "0.67"
    { vendor_name := "", vendor_abn := "", invoice_number := "", invoice_date := "",
      due_date := "", subtotal := 0, tax := 0, total := 500, currency := "AUD",
      description := "", line_items := [] } rfl (by decide)
  exact ⟨rfl, by decide, h.1, h.2.1⟩

/-- Chain lemma: if every stage is rejected (unavailable or under the minimum),
the loop exhausts and reports failure. -/
theorem runChain_all_rejected (l : List PdfStage) (h : ∀ s ∈ l, stageHit s = false) :
    (runChain l).text = none ∧ (runChain l).method = "All extraction methods failed" := by
  induction l with
  | nil => exact ⟨rfl, rfl⟩
  | cons s rest ih =>
    have hs := h s (List.mem_cons_self s rest)
    have hrest := ih fun t ht => h t (List.mem_cons_of_mem s ht)
    by_cases hav : s.available = true
    · have hacc : accept_ok 50 s.raw = false := by
        simpa [stageHit, hav] using hs
      simpa [runChain, hav, hacc] using hrest
    · have hav' : s.available = false := by
        cases hb : s.available
        · rfl
        · exact absurd hb hav
      simpa [runChain, hav'] using hrest

/-- Chain lemma: any accepted text passed the 50-character post-strip minimum. -/
theorem runChain_text_over_50 (l : List PdfStage) (t : String)
    (h : (runChain l).text = some t) : 50 < (pyStrip t).length := by
  induction l with
  | nil => simp [runChain] at h
  | cons s rest ih =>
    by_cases hav : s.available = true
    · by_cases hacc : accept_ok 50 s.raw = true
      · cases hr : s.raw with
        | none => rw [hr] at hacc; simp [accept_ok] at hacc
        | some u =>
          rw [hr] at hacc
          have hu : 50 < (pyStrip u).length := by
            simp [accept_ok] at hacc
            exact hacc.2
          have : some u = some t := by
            simpa [runChain, hav, hr, hacc] using h
          cases this
          exact hu
      · have hacc' : accept_ok 50 s.raw = false := by
          cases hb : accept_ok 50 s.raw
          · rfl
          · exact absurd hb hacc
        exact ih (by simpa [runChain, hav, hacc'] using h)
    · have hav' : s.available = false := by
        cases hb : s.available
        · rfl
        · exact absurd hb hav
      exact ih (by simpa [runChain, hav'] using h)

/-- Chain lemma: as soon as some stage of a front segment is available and
accepted, the loop never runs any stage of the back segment: the invoked stages
stay within the front segment's names, and a text is produced. -/
theorem runChain_stops_in_front (l1 l2 : List PdfStage)
    (h : ∃ s ∈ l1, stageHit s = true) :
    (runChain (l1 ++ l2)).invoked ⊆ l1.map PdfStage.name ∧
    (runChain (l1 ++ l2)).text.isSome = true := by
  induction l1 with
  | nil => simp at h
  | cons s rest ih =>
    by_cases hav : s.available = true
    · by_cases hacc : accept_ok 50 s.raw = true
      · have hsome : s.raw.isSome = true := by
          cases hr : s.raw
          · rw [hr] at hacc; simp [accept_ok] at hacc
          · rfl
        constructor
        · intro x hx
          have : x = s.name := by
            simpa [runChain, hav, hacc] using hx
          simp [this]
        · simpa [runChain, hav, hacc] using hsome
      · have h' : ∃ u ∈ rest, stageHit u = true := by
          rcases h with ⟨u, hu, hhit⟩
          rcases List.mem_cons.mp hu with rfl | hu'
          · exact absurd hhit (by simp [stageHit, hav, hacc])
          · exact ⟨u, hu', hhit⟩
        have hacc' : accept_ok 50 s.raw = false := by
          cases hb : accept_ok 50 s.raw
          · rfl
          · exact absurd hb hacc
        obtain ⟨hsub, hsome⟩ := ih h'
        constructor
        · intro x hx
          have hx' : x = s.name ∨ x ∈ (runChain (rest ++ l2)).invoked := by
            simpa [runChain, hav, hacc'] using hx
          rcases hx' with rfl | hx'
          · simp
          · exact List.mem_cons_of_mem _ (hsub hx')
        · simpa [runChain, hav, hacc'] using hsome
    · have hav' : s.available = false := by
        cases hb : s.available
        · rfl
        · exact absurd hb hav
      have h' : ∃ u ∈ rest, stageHit u = true := by
        rcases h with ⟨u, hu, hhit⟩
        rcases List.mem_cons.mp hu with rfl | hu'
        · exact absurd hhit (by simp [stageHit, hav'])
        · exact ⟨u, hu', hhit⟩
      obtain ⟨hsub, hsome⟩ := ih h'
      refine ⟨fun x hx => ?_, by simpa [runChain, hav'] using hsome⟩
      have hx' : x ∈ (runChain (rest ++ l2)).invoked := by
        simpa [runChain, hav'] using hx
      exact List.mem_cons_of_mem _ (hsub hx')

/-- C4 (counterexample): the claim's 20-character minimum for OCR methods is
false of the PDF chain — `PDFExtractor._extract_with_easyocr`
(pdf_extractor.py 185) demands more than 50 characters like the native readers.
On a PDF whose EasyOCR output has 30 stripped characters (> 20 but ≤ 50) the code
rejects every stage and returns `(None, "All extraction methods failed")`
(capitalised, line 103), while the chain described by the claim would accept the
EasyOCR result. -/
theorem pdf_ocr_minimum_counterexample :
    (pyStrip "Invoice 12345 total due $45.00").length = 30 ∧
    (pdf_extract_text exPdfEnv).text = none ∧
    (pdf_extract_text exPdfEnv).method = "All extraction methods failed" ∧
    pdf_extract_text_spec exPdfEnv
      = (some "Invoice 12345 total due $45.00", "EasyOCR") := by
  refine ⟨by decide, by decide, by decide, by decide⟩

/-- C4 (amended): the chain tries PyMuPDF, pdfplumber, pypdf, EasyOCR, Tesseract
in that fixed order and stops at the first accepted result, where *every* stage of
the PDF chain — the OCR tier included — accepts only when the stripped text
length strictly exceeds 50 characters (the 20-character minimum applies to the
standalone image-OCR and email extractors, not to this chain); OCR stages are
never invoked once a native-text stage's result is accepted; if every stage is
rejected the chain returns `(None, "All extraction methods failed")`. -/
theorem pdf_chain_behaviour (env : PdfEnv) (henv : env.file_exists = true) :
    ((nativeStages env).any stageHit = true →
        "EasyOCR" ∉ (pdf_extract_text env).invoked ∧
        "Tesseract" ∉ (pdf_extract_text env).invoked ∧
        (pdf_extract_text env).text.isSome = true) ∧
    ((pdfStages env).all (fun s => !stageHit s) = true →
        (pdf_extract_text env).text = none ∧
        (pdf_extract_text env).method = "All extraction methods failed") ∧
    (∀ t, (pdf_extract_text env).text = some t → 50 < (pyStrip t).length) ∧
    (env.pymupdf_available = true → accept_ok 50 env.pymupdf_text = true →
        pdf_extract_text env
          = ⟨env.pymupdf_text, "PyMuPDF (native text)", ["PyMuPDF"]⟩) := by
  have hdef : pdf_extract_text env = runChain (pdfStages env) := by
    simp [pdf_extract_text, henv]
  refine ⟨?_, ?_, ?_, ?_⟩
  · intro hnat
    rw [List.any_eq_true] at hnat
    obtain ⟨hsub, hsome⟩ := runChain_stops_in_front (nativeStages env) (ocrStages env) hnat
    rw [pdfStages] at hdef
    rw [hdef]
    refine ⟨fun hmem => ?_, fun hmem => ?_, hsome⟩
    · have := hsub hmem
      simp [nativeStages] at this
    · have := hsub hmem
      simp [nativeStages] at this
  · intro hall
    rw [List.all_eq_true] at hall
    rw [hdef]
    exact runChain_all_rejected _ fun s hs => by simpa using hall s hs
  · intro t ht
    rw [hdef] at ht
    exact runChain_text_over_50 _ t ht
  · intro hav hacc
    rw [hdef]
    simp [pdfStages, nativeStages, runChain, hav, hacc]

/-- C4 (witness): a PDF whose PyMuPDF pass yields 72 characters of native text is
accepted at stage one; the OCR stages are never invoked; and on `exPdfEnv` (all
stages rejected) the chain reports the failure pair. -/
theorem pdf_chain_behaviour_witness :
    ((nativeStages exPdfOkEnv).any stageHit = true ∧
      "EasyOCR" ∉ (pdf_extract_text exPdfOkEnv).invoked ∧
      "Tesseract" ∉ (pdf_extract_text exPdfOkEnv).invoked ∧
      pdf_extract_text exPdfOkEnv
        = ⟨exPdfOkEnv.pymupdf_text, "PyMuPDF (native text)", ["PyMuPDF"]⟩) ∧
    ((pdfStages exPdfEnv).all (fun s => !stageHit s) = true ∧
      (pdf_extract_text exPdfEnv).text = none ∧
      (pdf_extract_text exPdfEnv).method = "All extraction methods failed") := by
  have h1 := pdf_chain_behaviour exPdfOkEnv rfl
  have h2 := pdf_chain_behaviour exPdfEnv rfl
  have hok := h1.1 (by decide)
  have hfirst := h1.2.2.2 (by decide) (by decide)
  have hall := h2.2.1 (by decide)
  exact ⟨⟨by decide, hok.1, hok.2.1, hfirst⟩, ⟨by decide, hall.1, hall.2⟩⟩

/-- C8: the missing-fields check flags manual review exactly when a critical
field is missing — stripped vendor name empty, stripped invoice date empty, or
total equal to 0.0; with an empty vendor and zero total but a present date,
`MissingFields` lists "Vendor Name" and "Total Amount" but not "Invoice Date";
an empty invoice number alone is a bonus-only gap and does not trigger review. -/
theorem missing_fields_policy :
    (∀ d : InvoiceFields, (check_missing_fields d).1 = true ↔
        (pyStrip d.vendor_name = "" ∨ pyStrip d.invoice_date = "" ∨ d.total = 0)) ∧
    ((check_missing_fields
        ⟨"", "", "INV-7", "2024-01-01", "", 0, 0, 0, "AUD", "", []⟩).1 = true ∧
      "Vendor Name" ∈ (check_missing_fields
        ⟨"", "", "INV-7", "2024-01-01", "", 0, 0, 0, "AUD", "", []⟩).2 ∧
      "Total Amount" ∈ (check_missing_fields
        ⟨"", "", "INV-7", "2024-01-01", "", 0, 0, 0, "AUD", "", []⟩).2 ∧
      "Invoice Date" ∉ (check_missing_fields
        ⟨"", "", "INV-7", "2024-01-01", "", 0, 0, 0, "AUD", "", []⟩).2) ∧
    ((check_missing_fields
        ⟨"Telstra", "", "", "2024-01-01", "", 0, 0, 99, "AUD", "", []⟩).1 = false ∧
      (check_missing_fields
        ⟨"Telstra", "", "", "2024-01-01", "", 0, 0, 99, "AUD", "", []⟩).2
        = ["Invoice Number (bonus)"]) := by
  refine ⟨?_, by decide, by decide⟩
  intro d
  by_cases hv : pyStrip d.vendor_name = "" <;>
    by_cases hd : pyStrip d.invoice_date = "" <;>
      by_cases ht : d.total = 0 <;>
        by_cases hn : pyStrip d.invoice_number = "" <;>
          simp [check_missing_fields, hv, hd, ht, hn] <;> decide

/-- Updating the first record for a path never changes the list's length. -/
theorem updateFirstFailure_length (path reason : String) (count : ℤ) (now : String)
    (fs : List FailureRecord) :
    (updateFirstFailure path reason count now fs).length = fs.length := by
  induction fs with
  | nil => rfl
  | cons e rest ih =>
    by_cases h : (e.FilePath == path) = true <;>
      simp [updateFirstFailure, h, ih]

/-- Updating the first record for a path preserves every record's path. -/
theorem updateFirstFailure_filter (path reason : String) (count : ℤ) (now : String)
    (fs : List FailureRecord) (q : String) :
    ((updateFirstFailure path reason count now fs).filter
        (fun e => e.FilePath == q)).length
      = (fs.filter (fun e => e.FilePath == q)).length := by
  induction fs with
  | nil => rfl
  | cons e rest ih =>
    by_cases h : (e.FilePath == path) = true
    · by_cases hq : (e.FilePath == q) = true <;>
        simp [updateFirstFailure, updateFailureRecord, h, hq]
    · by_cases hq : (e.FilePath == q) = true <;>
        simp [updateFirstFailure, h, hq, ih]

/-- After the in-place update, `find_by_path` returns the updated record. -/
theorem updateFirstFailure_find (path reason : String) (count : ℤ) (now : String)
    (fs : List FailureRecord) (e : FailureRecord)
    (h : find_by_path fs path = some e) :
    find_by_path (updateFirstFailure path reason count now fs) path
      = some (updateFailureRecord e reason count now) := by
  induction fs with
  | nil => simp [find_by_path] at h
  | cons a rest ih =>
    cases ha : (a.FilePath == path) with
    | true =>
      have hae : a = e := by
        rw [find_by_path] at h
        simp [ha] at h
        exact h
      subst hae
      simp [updateFirstFailure, ha, find_by_path, updateFailureRecord]
    | false =>
      have h' : find_by_path rest path = some e := by
        rw [find_by_path] at h
        simp [ha] at h
        rw [find_by_path]
        exact h
      have hrec := ih h'
      rw [find_by_path] at hrec
      simp [updateFirstFailure, ha, find_by_path]
      exact hrec

/-- Records for other paths survive the in-place update untouched. -/
theorem updateFirstFailure_mem (path reason : String) (count : ℤ) (now : String)
    (fs : List FailureRecord) (u : FailureRecord)
    (hu : u ∈ fs) (hne : u.FilePath ≠ path) :
    u ∈ updateFirstFailure path reason count now fs := by
  induction fs with
  | nil => simp at hu
  | cons a rest ih =>
    rcases List.mem_cons.mp hu with rfl | hu'
    · have ha : (u.FilePath == path) = false := by
        simpa using hne
      simp [updateFirstFailure, ha]
    · cases ha : (a.FilePath == path) with
      | true =>
        simp [updateFirstFailure, ha, List.mem_cons]
        exact Or.inr hu'
      | false =>
        simp [updateFirstFailure, ha, List.mem_cons]
        exact Or.inr (ih hu')

/-- C7: `add_failure` keeps at most one record per path: for a path that already
has a record it rewrites that record's attempt count, reason and last-attempt
timestamp in place — same length, updated record found, unrelated records
untouched — and for an absent path it appends exactly one new record. -/
theorem add_failure_per_path (fs : List FailureRecord)
    (path name reason : String) (count : ℤ) (now : String)
    (huniq : pathsUnique fs) :
    pathsUnique (add_failure fs path name reason count now) ∧
    (∀ e, find_by_path fs path = some e →
        (add_failure fs path name reason count now).length = fs.length ∧
        find_by_path (add_failure fs path name reason count now) path
          = some (updateFailureRecord e reason count now) ∧
        ∀ u ∈ fs, u.FilePath ≠ path →
          u ∈ add_failure fs path name reason count now) ∧
    (find_by_path fs path = none →
        add_failure fs path name reason count now
          = fs ++ [⟨path, name, reason, count, now, now⟩]) := by
  refine ⟨?_, ?_, ?_⟩
  · cases hf : find_by_path fs path with
    | some e =>
      intro q
      rw [add_failure, hf, updateFirstFailure_filter]
      exact huniq q
    | none =>
      intro q
      rw [add_failure, hf, List.filter_append]
      by_cases hq : q = path
      · subst hq
        have hnil : fs.filter (fun e => e.FilePath == q) = [] := by
          rw [List.filter_eq_nil_iff]
          intro a ha
          have := List.find?_eq_none.mp hf a ha
          simpa using this
        simp [hnil]
      · have : ((⟨path, name, reason, count, now, now⟩ : FailureRecord).FilePath == q)
            = false := by
          simp [Ne.symm hq]
        simp [this]
        exact huniq q
  · intro e he
    rw [add_failure, he]
    exact ⟨updateFirstFailure_length _ _ _ _ _,
      updateFirstFailure_find _ _ _ _ _ _ he,
      fun u hu hne => updateFirstFailure_mem _ _ _ _ _ _ hu hne⟩
  · intro hf
    rw [add_failure, hf]

/-- C7 (witness): re-failing `/inbox/a.pdf` rewrites its record in place (same
length, updated count/reason/timestamp); failing the fresh path `/inbox/b.pdf`
appends exactly one record. -/
theorem add_failure_per_path_witness :
    (add_failure exFailed "/inbox/a.pdf" "a.pdf" "AI extraction failed" 2 "t1").length
        = exFailed.length ∧
    find_by_path (add_failure exFailed "/inbox/a.pdf" "a.pdf" "AI extraction failed" 2 "t1")
        "/inbox/a.pdf"
      = some ⟨"/inbox/a.pdf", "a.pdf", "AI extraction failed", 2, "t0", "t1"⟩ ∧
    add_failure exFailed "/inbox/b.pdf" "b.pdf" "No text content extracted" 1 "t1"
      = exFailed ++ [⟨"/inbox/b.pdf", "b.pdf", "No text content extracted", 1, "t1", "t1"⟩] := by
  have huniq : pathsUnique exFailed := by
    intro p
    by_cases h : ((⟨"/inbox/a.pdf", "a.pdf", "No text content extracted", 1, "t0",
        "t0"⟩ : FailureRecord).FilePath == p) = true <;>
      simp [exFailed, List.filter, h]
  have h1 := (add_failure_per_path exFailed "/inbox/a.pdf" "a.pdf"
    "AI extraction failed" 2 "t1" huniq).2.1
    ⟨"/inbox/a.pdf", "a.pdf", "No text content extracted", 1, "t0", "t0"⟩ (by decide)
  have h2 := (add_failure_per_path exFailed "/inbox/b.pdf" "b.pdf"
    "No text content extracted" 1 "t1" huniq).2.2 (by decide)
  exact ⟨h1.1, h1.2.1.trans (by decide), h2⟩

/-- C6: `get_retry_candidates` returns exactly the records whose attempt count is
strictly below the ceiling; and a file with no cache hit whose failure record has
reached the configured ceiling is emitted as "Skipped (Max retries exceeded)"
with the extraction chain never invoked and the state untouched. -/
theorem retry_ceiling (fs : List FailureRecord) (m : ℤ)
    (cfg : ProcConfig) (env : ProcEnv) (st : PipelineState) (file_hash : String)
    (fe : FailureRecord)
    (hhash : env.file_hash = some file_hash)
    (hnocache : find_by_hash st.cache file_hash = none)
    (hfe : find_by_path st.failed env.file_path = some fe)
    (hceil : cfg.max_retry_attempts ≤ fe.AttemptCount) :
    (∀ e, e ∈ get_retry_candidates fs m ↔ e ∈ fs ∧ e.AttemptCount < m) ∧
    (process_file cfg env st false).entry
      = some (create_failed_entry env file_hash "Skipped - Too many failures"
          "Skipped (Max retries exceeded)") ∧
    ((process_file cfg env st false).entry.map CatalogEntry.ProcessingStatus
      = some "Skipped (Max retries exceeded)") ∧
    (process_file cfg env st false).extraction_called = false ∧
    (process_file cfg env st false).state = st := by
  have hproc : process_file cfg env st false
      = ⟨some (create_failed_entry env file_hash "Skipped - Too many failures"
          "Skipped (Max retries exceeded)"), st, false, false, false, false⟩ := by
    simp [process_file, hhash, hnocache, hfe, hceil]
  refine ⟨fun e => ?_, by rw [hproc], by rw [hproc]; rfl, by rw [hproc], by rw [hproc]⟩
  simp [get_retry_candidates, List.mem_filter]

/-- C6 (witness): a file that has already failed 3 times with ceiling 3 is
skipped — surfaced as "Skipped (Max retries exceeded)", excluded from the retry
candidates, and the extraction chain is not called. -/
theorem retry_ceiling_witness :
    exSkipRecord ∉ get_retry_candidates exSkipState.failed 3 ∧
    ((process_file exSkipCfg exSkipEnv exSkipState false).entry.map
        CatalogEntry.ProcessingStatus = some "Skipped (Max retries exceeded)") ∧
    (process_file exSkipCfg exSkipEnv exSkipState false).extraction_called = false := by
  have h := retry_ceiling exSkipState.failed 3 exSkipCfg exSkipEnv exSkipState "h1"
    exSkipRecord rfl rfl (by decide) (by decide)
  refine ⟨fun hmem => ?_, h.2.2.1, h.2.2.2.1⟩
  have := (h.1 exSkipRecord).mp hmem
  exact absurd this.2 (by decide)

/-- Helper: the full success path of `process_file` — cache miss, no blocking
failure record, usable text of at least 50 stripped characters, structured
extraction succeeds — appends one cache record and emits the success entry. -/
theorem process_file_success_run
    (cfg : ProcConfig) (env : ProcEnv) (st : PipelineState)
    (fh text : String) (data : InvoiceFields)
    (hhash : env.file_hash = some fh)
    (hcache : find_by_hash st.cache fh = none)
    (hfail : find_by_path st.failed env.file_path = none)
    (htext : env.extract_text = some text)
    (hlen : 50 ≤ (pyStrip text).length)
    (hllm : env.llm_result = some data) :
    process_file cfg env st false
      = ⟨some (create_success_entry env fh env.moved_path data
            (categorize data.vendor_name data.description data.line_items)
            (legacy_calculate_deduction cfg.work_use_percentage
              cfg.fixed_rate_hourly_str data
              (categorize data.vendor_name data.description data.line_items))
            (check_missing_fields data).1 (check_missing_fields data).2),
         ⟨st.cache ++ [⟨env.file_name, fh, env.now, data,
            categorize data.vendor_name data.description data.line_items,
            legacy_calculate_deduction cfg.work_use_percentage
              cfg.fixed_rate_hourly_str data
              (categorize data.vendor_name data.description data.line_items)⟩],
          st.failed⟩,
         true, true, true, false⟩ := by
  have hnotshort : ¬ ((pyStrip text).length < 10) := by omega
  have hnoninv : ¬ ((pyStrip text).length < 50) := by omega
  simp [process_file, hhash, hcache, hfail, htext, hllm, hnotshort,
    is_non_invoice, hnoninv, cache_add_entry]

/-- Helper: the cache-hit path of `process_file` — a record with the file's hash
is found — emits the cached-duplicate entry, leaves the state untouched and
invokes nothing. -/
theorem process_file_cache_hit
    (cfg : ProcConfig) (env : ProcEnv) (st : PipelineState)
    (fh : String) (rec : CacheRecord)
    (hhash : env.file_hash = some fh)
    (hfind : find_by_hash st.cache fh = some rec) :
    process_file cfg env st false
      = ⟨some (create_cached_entry env fh rec), st, false, false, false, false⟩ := by
  simp [process_file, hhash, hfind]

/-- C1: processing a file whose hash is new succeeds and caches the result; a
second file with the same hash (reprocess off) yields a "Cached (Duplicate)"
entry whose invoice fields, category and deduction are identical to the first
run's, with the extraction chain and the structured-extraction service never
invoked and no file moved. -/
theorem cached_duplicate_idempotent
    (cfg : ProcConfig) (env1 env2 : ProcEnv) (st : PipelineState)
    (fh text1 : String) (data : InvoiceFields)
    (h1hash : env1.file_hash = some fh)
    (h1cache : find_by_hash st.cache fh = none)
    (h1fail : find_by_path st.failed env1.file_path = none)
    (h1text : env1.extract_text = some text1)
    (h1len : 50 ≤ (pyStrip text1).length)
    (h1llm : env1.llm_result = some data)
    (h2hash : env2.file_hash = some fh) :
    ∃ e1 e2 : CatalogEntry,
      (process_file cfg env1 st false).entry = some e1 ∧
      (process_file cfg env2 (process_file cfg env1 st false).state false).entry
        = some e2 ∧
      e1.ProcessingStatus = "Success" ∧
      e2.ProcessingStatus = "Cached (Duplicate)" ∧
      invoiceView e2 = invoiceView e1 ∧
      e2.Category = e1.Category ∧
      deductionView e2 = deductionView e1 ∧
      (process_file cfg env2 (process_file cfg env1 st false).state false).extraction_called
        = false ∧
      (process_file cfg env2 (process_file cfg env1 st false).state false).llm_called
        = false ∧
      (process_file cfg env2 (process_file cfg env1 st false).state false).moved_processed
        = false ∧
      (process_file cfg env2 (process_file cfg env1 st false).state false).moved_non_invoice
        = false := by
  have hrun1 := process_file_success_run cfg env1 st fh text1 data
    h1hash h1cache h1fail h1text h1len h1llm
  have hfind2 : find_by_hash
      ((process_file cfg env1 st false).state).cache fh
      = some ⟨env1.file_name, fh, env1.now, data,
          categorize data.vendor_name data.description data.line_items,
          legacy_calculate_deduction cfg.work_use_percentage
            cfg.fixed_rate_hourly_str data
            (categorize data.vendor_name data.description data.line_items)⟩ := by
    rw [hrun1]
    rw [find_by_hash, List.find?_append]
    rw [find_by_hash] at h1cache
    rw [h1cache]
    simp [find_by_hash]
  have hrun2 := process_file_cache_hit cfg env2
    ((process_file cfg env1 st false).state) fh _ h2hash hfind2
  refine ⟨create_success_entry env1 fh env1.moved_path data
      (categorize data.vendor_name data.description data.line_items)
      (legacy_calculate_deduction cfg.work_use_percentage
        cfg.fixed_rate_hourly_str data
        (categorize data.vendor_name data.description data.line_items))
      (check_missing_fields data).1 (check_missing_fields data).2,
    create_cached_entry env2 fh ⟨env1.file_name, fh, env1.now, data,
      categorize data.vendor_name data.description data.line_items,
      legacy_calculate_deduction cfg.work_use_percentage
        cfg.fixed_rate_hourly_str data
        (categorize data.vendor_name data.description data.line_items)⟩,
    ?_, ?_, rfl, rfl, rfl, rfl, rfl, ?_, ?_, ?_, ?_⟩
  · rw [hrun1]
  · rw [hrun2]
  · rw [hrun2]
  · rw [hrun2]
  · rw [hrun2]
  · rw [hrun2]

unseal Rat.add Rat.sub Rat.mul Rat.inv Rat.ofScientific in
/-- C5 (counterexample): the claim's second disjunct — vendor_name empty AND
total 0.0 after the structured-extraction attempt — never triggers the
NonInvoice transition: `process_file` calls `_is_non_invoice(None, text)` once,
*before* structured extraction (file_processor.py 318), so only the 50-character
test is live.  A 68-character text whose extraction yields empty vendor and zero
total is emitted as "Success" (with NeedsManualReview = true), not relocated to
the non-invoice area. -/
theorem non_invoice_vendor_total_counterexample :
    exNonInvData.vendor_name = "" ∧ exNonInvData.total = 0 ∧
    50 ≤ (pyStrip (exNonInvEnv.extract_text.getD "")).length ∧
    ((process_file exSkipCfg exNonInvEnv ⟨[], []⟩ false).entry.map
        CatalogEntry.ProcessingStatus) = some "Success" ∧
    ((process_file exSkipCfg exNonInvEnv ⟨[], []⟩ false).entry.map
        CatalogEntry.NeedsManualReview) = some true ∧
    (process_file exSkipCfg exNonInvEnv ⟨[], []⟩ false).moved_non_invoice = false := by
  refine ⟨rfl, rfl, by decide, by decide, by decide, by decide⟩

/-- C5 (amended): with usable text (at least 10 stripped characters), the
orchestrator takes the NonInvoice transition exactly when the stripped text
length is under 50 characters — the vendor-empty-and-total-zero heuristic of
`_is_non_invoice` is unreachable because the orchestrator invokes the check
before structured extraction with no extracted data; on the transition the file
is relocated to the non-invoice holding area and the entry has status
"Non-Invoice" and NeedsManualReview = false. -/
theorem non_invoice_transition
    (cfg : ProcConfig) (env : ProcEnv) (st : PipelineState)
    (fh text : String)
    (hhash : env.file_hash = some fh)
    (hcache : find_by_hash st.cache fh = none)
    (hfail : find_by_path st.failed env.file_path = none)
    (htext : env.extract_text = some text)
    (hlen : 10 ≤ (pyStrip text).length) :
    (((process_file cfg env st false).entry.map CatalogEntry.ProcessingStatus
        = some "Non-Invoice") ↔ (pyStrip text).length < 50) ∧
    ((pyStrip text).length < 50 →
      (process_file cfg env st false).entry
        = some (create_non_invoice_entry env fh env.non_invoice_moved_path
            "Too little text content (likely logo/signature)") ∧
      (process_file cfg env st false).moved_non_invoice = true ∧
      ((process_file cfg env st false).entry.map CatalogEntry.NeedsManualReview)
        = some false ∧
      ((process_file cfg env st false).entry.map CatalogEntry.MovedTo)
        = some env.non_invoice_moved_path) := by
  have hnotshort : ¬ ((pyStrip text).length < 10) := by omega
  by_cases hlt : (pyStrip text).length < 50
  · have hrun : process_file cfg env st false
        = ⟨some (create_non_invoice_entry env fh env.non_invoice_moved_path
            "Too little text content (likely logo/signature)"),
           st, true, false, false, true⟩ := by
      simp [process_file, hhash, hcache, hfail, htext, hnotshort, is_non_invoice, hlt]
    rw [hrun]
    exact ⟨iff_of_true rfl hlt, fun _ => ⟨rfl, rfl, rfl, rfl⟩⟩
  · refine ⟨?_, fun h2 => absurd h2 hlt⟩
    cases hllm : env.llm_result with
    | none =>
      have hrun : process_file cfg env st false
          = ⟨some (create_failed_entry env fh "AI extraction failed"
              "Failed (AI extraction)"),
             ⟨st.cache, add_failure st.failed env.file_path env.file_name
                "AI extraction failed" 1 env.now⟩, true, true, false, false⟩ := by
        simp [process_file, hhash, hcache, hfail, htext, hnotshort, is_non_invoice,
          hlt, hllm]
      rw [hrun]
      exact iff_of_false (by simp [create_failed_entry]) hlt
    | some data =>
      have hrun := process_file_success_run cfg env st fh text data
        hhash hcache hfail htext (by omega) hllm
      rw [hrun]
      exact iff_of_false (by simp [create_success_entry]) hlt

/-- C5 (witness): an 18-character OCR text is judged a non-invoice: the entry is
"Non-Invoice", NeedsManualReview = false, and the file is relocated to the
non-invoice holding area. -/
theorem non_invoice_transition_witness :
    (10 ≤ (pyStrip "Company logo image").length) ∧
    ((pyStrip "Company logo image").length < 50) ∧
    ((process_file exSkipCfg exLogoEnv ⟨[], []⟩ false).entry.map
        CatalogEntry.ProcessingStatus = some "Non-Invoice") ∧
    (process_file exSkipCfg exLogoEnv ⟨[], []⟩ false).moved_non_invoice = true ∧
    ((process_file exSkipCfg exLogoEnv ⟨[], []⟩ false).entry.map
        CatalogEntry.MovedTo = some "/out/Non-Invoice/logo.pdf") ∧
    ((process_file exSkipCfg exLogoEnv ⟨[], []⟩ false).entry.map
        CatalogEntry.NeedsManualReview = some false) := by
  have h := non_invoice_transition exSkipCfg exLogoEnv ⟨[], []⟩ "hL"
    "Company logo image" rfl rfl rfl rfl (by decide)
  have h2 := h.2 (by decide)
  exact ⟨by decide, by decide, (h.1).mpr (by decide), h2.2.1, h2.2.2.2, h2.2.2.1⟩

/-- C10: the cached-duplicate entry carries the constants
NeedsManualReview = false, MissingFields = [] and MovedTo = "N/A - Duplicate"
regardless of the cached record — in particular a duplicate of a file whose
original Success entry had NeedsManualReview = true is reported with
NeedsManualReview = false. -/
theorem cached_entry_ignores_review_flags
    (cfg : ProcConfig) (env1 env2 : ProcEnv) (st : PipelineState)
    (fh text1 : String) (data : InvoiceFields)
    (h1hash : env1.file_hash = some fh)
    (h1cache : find_by_hash st.cache fh = none)
    (h1fail : find_by_path st.failed env1.file_path = none)
    (h1text : env1.extract_text = some text1)
    (h1len : 50 ≤ (pyStrip text1).length)
    (h1llm : env1.llm_result = some data)
    (h2hash : env2.file_hash = some fh) :
    (∀ e : ProcEnv, ∀ hsh : String, ∀ rec : CacheRecord,
        (create_cached_entry e hsh rec).NeedsManualReview = false ∧
        (create_cached_entry e hsh rec).MissingFields = [] ∧
        (create_cached_entry e hsh rec).MovedTo = "N/A - Duplicate") ∧
    ((process_file cfg env1 st false).entry.map CatalogEntry.NeedsManualReview
        = some (check_missing_fields data).1) ∧
    ((process_file cfg env2 (process_file cfg env1 st false).state false).entry.map
        CatalogEntry.NeedsManualReview = some false) ∧
    ((process_file cfg env2 (process_file cfg env1 st false).state false).entry.map
        CatalogEntry.MissingFields = some []) ∧
    ((process_file cfg env2 (process_file cfg env1 st false).state false).entry.map
        CatalogEntry.MovedTo = some "N/A - Duplicate") := by
  have hrun1 := process_file_success_run cfg env1 st fh text1 data
    h1hash h1cache h1fail h1text h1len h1llm
  have hfind2 : find_by_hash ((process_file cfg env1 st false).state).cache fh
      = some ⟨env1.file_name, fh, env1.now, data,
          categorize data.vendor_name data.description data.line_items,
          legacy_calculate_deduction cfg.work_use_percentage
            cfg.fixed_rate_hourly_str data
            (categorize data.vendor_name data.description data.line_items)⟩ := by
    rw [hrun1]
    rw [find_by_hash, List.find?_append]
    rw [find_by_hash] at h1cache
    rw [h1cache]
    simp [find_by_hash]
  have hrun2 := process_file_cache_hit cfg env2
    ((process_file cfg env1 st false).state) fh _ h2hash hfind2
  refine ⟨fun e hsh rec => ⟨rfl, rfl, rfl⟩, ?_, ?_, ?_, ?_⟩
  · rw [hrun1]; rfl
  · rw [hrun2]; rfl
  · rw [hrun2]; rfl
  · rw [hrun2]; rfl

unseal Rat.add Rat.sub Rat.mul Rat.inv Rat.ofScientific in
/-- C10 (witness): the first run's entry (missing invoice date) has
NeedsManualReview = true; the duplicate's entry still reports
NeedsManualReview = false, MissingFields = [] and MovedTo = "N/A - Duplicate". -/
theorem cached_entry_ignores_review_flags_witness :
    (check_missing_fields exReviewData).1 = true ∧
    ((process_file exSkipCfg exReviewEnv1 ⟨[], []⟩ false).entry.map
        CatalogEntry.NeedsManualReview = some true) ∧
    ((process_file exSkipCfg exReviewEnv2
        (process_file exSkipCfg exReviewEnv1 ⟨[], []⟩ false).state false).entry.map
        CatalogEntry.NeedsManualReview = some false) ∧
    ((process_file exSkipCfg exReviewEnv2
        (process_file exSkipCfg exReviewEnv1 ⟨[], []⟩ false).state false).entry.map
        CatalogEntry.MissingFields = some []) ∧
    ((process_file exSkipCfg exReviewEnv2
        (process_file exSkipCfg exReviewEnv1 ⟨[], []⟩ false).state false).entry.map
        CatalogEntry.MovedTo = some "N/A - Duplicate") := by
  have h := cached_entry_ignores_review_flags exSkipCfg exReviewEnv1 exReviewEnv2
    ⟨[], []⟩ "hash9"
    "Tax Invoice INV-9 Telstra internet service amount due AUD 55.00 date missing"
    exReviewData rfl rfl rfl rfl (by decide) rfl rfl
  exact ⟨by decide, h.2.1.trans (by decide), h.2.2.1, h.2.2.2.1, h.2.2.2.2⟩

/-- C1 (witness): a Telstra invoice is processed successfully; a byte-identical
copy under another name is emitted as "Cached (Duplicate)" with the same invoice
fields, category and deduction, with no extraction, no service call and no file
move. -/
theorem cached_duplicate_idempotent_witness :
    (50 ≤ (pyStrip
        "Tax Invoice INV-42 Telstra monthly internet service total AUD 100.00").length) ∧
    (∃ e1 e2 : CatalogEntry,
      (process_file exSkipCfg exDupEnv1 ⟨[], []⟩ false).entry = some e1 ∧
      (process_file exSkipCfg exDupEnv2
          (process_file exSkipCfg exDupEnv1 ⟨[], []⟩ false).state false).entry
        = some e2 ∧
      e1.ProcessingStatus = "Success" ∧
      e2.ProcessingStatus = "Cached (Duplicate)" ∧
      invoiceView e2 = invoiceView e1 ∧
      e2.Category = e1.Category ∧
      deductionView e2 = deductionView e1 ∧
      (process_file exSkipCfg exDupEnv2
          (process_file exSkipCfg exDupEnv1 ⟨[], []⟩ false).state false).extraction_called
        = false ∧
      (process_file exSkipCfg exDupEnv2
          (process_file exSkipCfg exDupEnv1 ⟨[], []⟩ false).state false).llm_called
        = false ∧
      (process_file exSkipCfg exDupEnv2
          (process_file exSkipCfg exDupEnv1 ⟨[], []⟩ false).state false).moved_processed
        = false ∧
      (process_file exSkipCfg exDupEnv2
          (process_file exSkipCfg exDupEnv1 ⟨[], []⟩ false).state false).moved_non_invoice
        = false) := by
  refine ⟨by decide, ?_⟩
  exact cached_duplicate_idempotent exSkipCfg exDupEnv1 exDupEnv2 ⟨[], []⟩ "hash42"
    "Tax Invoice INV-42 Telstra monthly internet service total AUD 100.00"
    exDupData rfl rfl rfl rfl (by decide) rfl rfl

